import Mathlib

/-!
Shallow embedding of the sACN transmitter (`src/sacn/transmitter.go`) and
proofs of the specification claims about it.

The repository file under verification is `transmitter.go`.  The frame codec
(`DataPacket`) and the multicast-address derivation (`calcMulticastAddr`)
live in repository files that are not included; they are modelled from the
specification (§4.4, §6) and marked as such in their doc comments.

Go maps are modelled as total functions with the Go zero-value default
(`Bool` maps default to `false`, slice maps to `[]`, pointer maps via
`Option`).  Durations are natural numbers (nanoseconds).  The sequence
counter is a natural number kept below 256 by explicit `% 256` arithmetic.
-/

/-- Modelled from the spec: a resolved UDP endpoint (`net.UDPAddr`).  Only
its identity matters to the transmitter core, so it is represented by the
string it was resolved from. -/
structure UDPAddr where
  addr : String
deriving Repr, DecidableEq

/-- Modelled from the spec (§6, §4.4): the external `DataPacket` frame codec.
Its source file is not part of `src/`; the spec requires set-identity,
set-source-name, set-universe, set-payload, set-priority, increment-sequence,
set-termination and pure serialization.  The sequence counter is unsigned
8-bit (wraps 255 → 0). -/
structure DataPacket where
  cid : List Nat
  sourceName : String
  univ : Nat
  data : List Nat
  priority : Nat
  sequence : Nat
  streamTerminated : Bool
deriving Repr, DecidableEq

/-- Modelled from the spec (§4.1): a fresh packet has a zeroed identity, an
empty payload, sequence 0 and an unset (0 = default) priority and unset
termination flag. -/
def NewDataPacket : DataPacket :=
  { cid := List.replicate 16 0
    sourceName := ""
    univ := 0
    data := []
    priority := 0
    sequence := 0
    streamTerminated := false }

def DataPacket.SetCID (p : DataPacket) (c : List Nat) : DataPacket :=
  { p with cid := c }

def DataPacket.SetSourceName (p : DataPacket) (s : String) : DataPacket :=
  { p with sourceName := s }

def DataPacket.SetUniverse (p : DataPacket) (u : Nat) : DataPacket :=
  { p with univ := u }

def DataPacket.SetData (p : DataPacket) (d : List Nat) : DataPacket :=
  { p with data := d }

def DataPacket.SetPriority (p : DataPacket) (prio : Nat) : DataPacket :=
  { p with priority := prio }

/-- Modelled from the spec (§4.4): wrapping unsigned-8-bit increment. -/
def DataPacket.SequenceIncr (p : DataPacket) : DataPacket :=
  { p with sequence := (p.sequence + 1) % 256 }

def DataPacket.SetStreamTerminated (p : DataPacket) (b : Bool) : DataPacket :=
  { p with streamTerminated := b }

/-- Modelled from the spec (§6): serialization is a pure function of the
packet state; the wire bytes are represented by the packet state itself. -/
def DataPacket.getBytes (p : DataPacket) : DataPacket := p

/-- Modelled from the spec (§6): the multicast group address for universe U
maps U's high and low bytes into the reserved 239.255.x.y prefix.  The
source function `calcMulticastAddr` is not under `src/`. -/
def calcMulticastAddr (univ : Nat) : String :=
  "239.255." ++ toString (univ / 256) ++ "." ++ toString (univ % 256)

/-- `generateMulticast` (transmitter.go:213-216): resolves the multicast
address string with the fixed port 5568 appended; the resolution of this
well-formed literal cannot fail and its error is discarded by the source. -/
def generateMulticast (univ : Nat) : UDPAddr :=
  ⟨calcMulticastAddr univ ++ ":5568"⟩

/-- The `Transmitter` struct (transmitter.go:11-22).  The `universes` map of
channels is modelled by its key set (a channel's only registry-visible role
is membership); the other maps keep their Go zero-value read semantics. -/
structure Transmitter where
  universes : Nat → Bool
  master : Nat → Option DataPacket
  destinations : Nat → List UDPAddr
  multicast : Nat → Bool
  bind : String
  cid : List Nat
  sourceName : String
  keepAliveInterval : Nat
  priority : Nat

/-- `NewTransmitter` (transmitter.go:28-53).  Resolution and bind probing are
environment effects, supplied as boolean outcomes; on failure the partially
initialised transmitter is returned together with the error, exactly as the
source returns `tx, err`. -/
def NewTransmitter (binding : String) (cid : List Nat) (sourceName : String)
    (resolveOk listenOk : Bool) : Transmitter × Bool :=
  let tx : Transmitter :=
    { universes := fun _ => false
      master := fun _ => none
      destinations := fun _ => []
      multicast := fun _ => false
      bind := ""
      cid := cid
      sourceName := sourceName
      keepAliveInterval := 1000000000
      priority := 0 }
  if !resolveOk then (tx, false)
  else if !listenOk then (tx, false)
  else ({ tx with bind := binding }, true)

/-- `IsActivated` (transmitter.go:116-121). -/
def Transmitter.IsActivated (t : Transmitter) (univ : Nat) : Bool :=
  t.universes univ

/-- `SetMulticast` (transmitter.go:134-136). -/
def Transmitter.SetMulticast (t : Transmitter) (univ : Nat) (m : Bool) :
    Transmitter :=
  { t with multicast := Function.update t.multicast univ m }

/-- `IsMulticast` (transmitter.go:139-141). -/
def Transmitter.IsMulticast (t : Transmitter) (univ : Nat) : Bool :=
  t.multicast univ

/-- `SetKeepAlive` (transmitter.go:202-204). -/
def Transmitter.SetKeepAlive (t : Transmitter) (interval : Nat) : Transmitter :=
  { t with keepAliveInterval := interval }

/-- `SetPriority` (transmitter.go:209-211). -/
def Transmitter.SetPriority (t : Transmitter) (prio : Nat) : Transmitter :=
  { t with priority := prio }

/-- One attempted datagram: destination, serialized bytes, and the outcome of
`WriteToUDP` (which the source discards). -/
structure Write where
  dest : UDPAddr
  bytes : DataPacket
  ok : Bool
deriving Repr, DecidableEq

/-- `sendOut` (transmitter.go:180-196): no-op when the universe has no master
packet; otherwise increments the sequence number of the (pointer-shared)
master packet, writes to the multicast group when the flag is set, then to
every unicast destination in list order.  `wr` gives each `WriteToUDP` call's
outcome; the source ignores it, so it only appears in the recorded writes. -/
def Transmitter.sendOut (wr : UDPAddr → Bool) (t : Transmitter) (univ : Nat) :
    Transmitter × List Write :=
  match t.master univ with
  | none => (t, [])
  | some packet =>
    let packet := packet.SequenceIncr
    let t := { t with master := Function.update t.master univ (some packet) }
    let mcast :=
      if t.multicast univ then
        [⟨generateMulticast univ, packet.getBytes, wr (generateMulticast univ)⟩]
      else []
    let ucast := (t.destinations univ).map
      (fun d => (⟨d, packet.getBytes, wr d⟩ : Write))
    (t, mcast ++ ucast)

/-- The three ways `Activate` fails (transmitter.go:60-71): duplicate
universe, bind-address resolution failure, socket-creation failure. -/
inductive ActivateError where
  | alreadyActive (univ : Nat)
  | resolveErr
  | listenErr
deriving Repr, DecidableEq

/-- `Activate` (transmitter.go:58-113), registry effect.  The two goroutines
it starts are modelled separately (`keepAliveIteration`, `recvPayload`,
`teardown`); socket creation and address resolution are environment effects
supplied as boolean outcomes.  On success the universe is entered into the
`universes` map and a fresh master packet (zeroed 512-byte payload, priority
stamped only when the transmitter default is nonzero) into `master`. -/
def Transmitter.Activate (t : Transmitter) (resolveOk listenOk : Bool)
    (univ : Nat) : Transmitter × Option ActivateError :=
  if t.IsActivated univ then (t, some (ActivateError.alreadyActive univ))
  else if !resolveOk then (t, some ActivateError.resolveErr)
  else if !listenOk then (t, some ActivateError.listenErr)
  else
    let t := { t with universes := Function.update t.universes univ true }
    let masterPacket :=
      (((NewDataPacket.SetCID t.cid).SetSourceName t.sourceName).SetUniverse
        univ).SetData (List.replicate 512 0)
    let masterPacket :=
      if t.priority > 0 then masterPacket.SetPriority t.priority
      else masterPacket
    ({ t with master := Function.update t.master univ (some masterPacket) },
      none)

/-- One iteration of the send goroutine's `for i := range ch` body
(transmitter.go:99-102): store the received payload into the master packet,
then `sendOut`.  The source dereferences `t.master[universe]` without a
check; in the sequential session semantics the entry is always present, and
the model leaves an absent entry untouched. -/
def Transmitter.recvPayload (wr : UDPAddr → Bool) (t : Transmitter)
    (univ : Nat) (i : List Nat) : Transmitter × List Write :=
  let m := Function.update t.master univ
    ((t.master univ).map (fun p => p.SetData i))
  let t := { t with master := m }
  t.sendOut wr univ

/-- Observable session events: a transmitted frame (one `sendOut` that found
an active master packet, with its datagram writes) or the socket release. -/
inductive Ev where
  | transmit (frame : DataPacket) (writes : List Write)
  | sockClose
deriving Repr, DecidableEq

/-- The send goroutine's epilogue once the input channel is closed
(transmitter.go:103-109): set the termination flag on the master packet,
`sendOut` one final frame, delete the universe from the `master` and
`universes` maps, and close the socket. -/
def Transmitter.teardown (wr : UDPAddr → Bool) (t : Transmitter)
    (univ : Nat) : Transmitter × List Ev :=
  let m := Function.update t.master univ
    ((t.master univ).map (fun p => p.SetStreamTerminated true))
  let t := { t with master := m }
  let r := t.sendOut wr univ
  let t := r.1
  let frameEv := match t.master univ with
    | some p => [Ev.transmit p r.2]
    | none => []
  let t := { t with
    master := Function.update t.master univ none
    universes := Function.update t.universes univ false }
  (t, frameEv ++ [Ev.sockClose])

/-- One iteration of the keep-alive goroutine's loop (transmitter.go:88-95):
break when the master entry is gone; otherwise `sendOut` and sleep for the
transmitter's current `keepAliveInterval` (read from the live transmitter
state on every iteration).  `none` means the loop exits. -/
def Transmitter.keepAliveIteration (wr : UDPAddr → Bool) (t : Transmitter)
    (univ : Nat) : Option (Transmitter × List Write × Nat) :=
  match t.master univ with
  | none => none
  | some _ =>
    let r := t.sendOut wr univ
    some (r.1, r.2, r.1.keepAliveInterval)

/-- `SetDestinations` (transmitter.go:148-169).  `net.ResolveUDPAddr` is an
environment effect, supplied as a resolver oracle; an error is represented
by the port-suffixed string that failed to resolve.  Empty strings are
skipped, failed resolutions are collected, and the universe's destination
slice is replaced wholesale by the successfully resolved addresses. -/
def resolveStep (resolve : String → Option UDPAddr)
    (acc : List UDPAddr × List String) (dest : String) :
    List UDPAddr × List String :=
  if dest = "" then acc
  else match resolve (dest ++ ":5568") with
    | none => (acc.1, acc.2 ++ [dest ++ ":5568"])
    | some addr => (acc.1 ++ [addr], acc.2)

def Transmitter.SetDestinations (resolve : String → Option UDPAddr)
    (t : Transmitter) (univ : Nat) (dests : List String) :
    Transmitter × List String :=
  let r := dests.foldl (resolveStep resolve) ([], [])
  ({ t with destinations := Function.update t.destinations univ r.1 }, r.2)

/-- `Destinations` (transmitter.go:173-177) as a value-level read: the copy
semantics of the returned slice is modelled explicitly by the heap model
further below (`DestinationsH`). -/
def Transmitter.Destinations (t : Transmitter) (univ : Nat) : List UDPAddr :=
  t.destinations univ

/-- Helper: `sendOut` on an active universe, fully evaluated: the master map
now holds the sequence-incremented packet, and the writes are the multicast
datagram (when the flag is set) followed by the unicast datagrams in list
order, all carrying the incremented packet's bytes. -/
theorem sendOut_active_eq (wr : UDPAddr → Bool) (t : Transmitter) (univ : Nat)
    (p : DataPacket) (h : t.master univ = some p) :
    t.sendOut wr univ =
      ({ t with master := Function.update t.master univ (some p.SequenceIncr) },
        (if t.multicast univ then
          [⟨generateMulticast univ, p.SequenceIncr, wr (generateMulticast univ)⟩]
        else []) ++
        (t.destinations univ).map
          (fun d => (⟨d, p.SequenceIncr, wr d⟩ : Write))) := by
  simp [Transmitter.sendOut, h, DataPacket.getBytes]

/-- C9: when a universe has no master-packet entry (never activated or torn
down), `sendOut` is a complete no-op: the transmitter state is returned
unchanged and no datagram is written. -/
theorem sendOut_inactive_noop (wr : UDPAddr → Bool) (t : Transmitter)
    (univ : Nat) (h : t.master univ = none) :
    t.sendOut wr univ = (t, []) := by
  simp [Transmitter.sendOut, h]

/-- Witness for C9 at a freshly constructed transmitter and universe 1. -/
theorem sendOut_inactive_noop_witness :
    (NewTransmitter "" (List.replicate 16 0) "" true true).1.master 1 = none ∧
    Transmitter.sendOut (fun _ => true)
        (NewTransmitter "" (List.replicate 16 0) "" true true).1 1 =
      ((NewTransmitter "" (List.replicate 16 0) "" true true).1, []) :=
  ⟨rfl, sendOut_inactive_noop (fun _ => true)
    (NewTransmitter "" (List.replicate 16 0) "" true true).1 1 rfl⟩

/-- C7: every transmit on an active universe writes the serialized frame to
the multicast endpoint first exactly when multicast is enabled, then to
every unicast destination in list order; all writes carry the same frame
bytes; and the attempted destinations and the post-state are independent of
the per-write outcomes (a failed write never prevents the remaining
attempts). -/
theorem sendOut_fanout_order (wr : UDPAddr → Bool) (t : Transmitter)
    (univ : Nat) (p : DataPacket) (h : t.master univ = some p) :
    ((t.sendOut wr univ).2.map Write.dest =
      (if t.multicast univ then [generateMulticast univ] else []) ++
        t.destinations univ) ∧
    (∀ w ∈ (t.sendOut wr univ).2, w.bytes = p.SequenceIncr.getBytes) ∧
    (∀ wr' : UDPAddr → Bool,
      (t.sendOut wr' univ).1 = (t.sendOut wr univ).1 ∧
      (t.sendOut wr' univ).2.map Write.dest =
        (t.sendOut wr univ).2.map Write.dest) := by
  refine ⟨?_, ?_, ?_⟩
  · rw [sendOut_active_eq wr t univ p h]
    by_cases hm : t.multicast univ <;>
      simp [hm, List.map_map, Function.comp_def]
  · rw [sendOut_active_eq wr t univ p h]
    intro w hw
    rcases List.mem_append.mp hw with hw | hw
    · by_cases hm : t.multicast univ <;> simp [hm] at hw
      subst hw; rfl
    · rcases List.mem_map.mp hw with ⟨d, _, rfl⟩
      rfl
  · intro wr'
    rw [sendOut_active_eq wr t univ p h, sendOut_active_eq wr' t univ p h]
    constructor
    · rfl
    · by_cases hm : t.multicast univ <;>
        simp [hm, List.map_map, Function.comp_def]

/-- Concrete 16-byte client identifier used by the example states. -/
def cid0 : List Nat := List.replicate 16 0

/-- A freshly constructed transmitter (successful bind probe). -/
def txFresh : Transmitter := (NewTransmitter "" cid0 "src" true true).1

/-- `txFresh` after a successful `Activate` of universe 1: multicast off and
no unicast destinations configured. -/
def txActive1 : Transmitter := (txFresh.Activate true true 1).1

/-- The master packet `Activate` installs for universe 1 of `txFresh`. -/
def pMaster1 : DataPacket :=
  (((NewDataPacket.SetCID cid0).SetSourceName "src").SetUniverse 1).SetData
    (List.replicate 512 0)

/-- A resolver oracle under which every host string resolves. -/
def resolveAll : String → Option UDPAddr := fun s => some ⟨s⟩

/-- `txActive1` with multicast enabled and one unicast destination set. -/
def txFan : Transmitter :=
  ((txActive1.SetMulticast 1 true).SetDestinations resolveAll 1
    ["10.0.0.5"]).1

/-- Witness for C7: the fan-out theorem applied to `txFan` at universe 1. -/
theorem sendOut_fanout_order_witness :
    txFan.master 1 = some pMaster1 ∧
    (((Transmitter.sendOut (fun _ => true) txFan 1).2.map Write.dest =
      (if txFan.multicast 1 then [generateMulticast 1] else []) ++
        txFan.destinations 1) ∧
    (∀ w ∈ (Transmitter.sendOut (fun _ => true) txFan 1).2,
      w.bytes = pMaster1.SequenceIncr.getBytes) ∧
    (∀ wr' : UDPAddr → Bool,
      (Transmitter.sendOut wr' txFan 1).1 =
        (Transmitter.sendOut (fun _ => true) txFan 1).1 ∧
      (Transmitter.sendOut wr' txFan 1).2.map Write.dest =
        (Transmitter.sendOut (fun _ => true) txFan 1).2.map Write.dest)) :=
  ⟨rfl, sendOut_fanout_order (fun _ => true) txFan 1 pMaster1 rfl⟩

/-- C1, counterexample: on `txActive1` (active universe 1, multicast
disabled, empty unicast list) `sendOut` increments the sequence counter from
0 to 1 while writing no datagram at all — an increment without any
corresponding transmission, refuting the claim for the empty destination
configuration. -/
theorem sendOut_increment_without_transmission :
    (Transmitter.sendOut (fun _ => true) txActive1 1).2 = [] ∧
    ((Transmitter.sendOut (fun _ => true) txActive1 1).1.master 1).map
      DataPacket.sequence = some 1 ∧
    (txActive1.master 1).map DataPacket.sequence = some 0 := by
  refine ⟨rfl, rfl, rfl⟩

/-- C1 as amended: on an active universe every call to the transmit
procedure `sendOut` increments the sequence counter exactly once (wrapping
unsigned-8-bit), and writes the frame to exactly the configured
destinations — so increments and transmissions correspond one-to-one
whenever at least one destination is configured, while with multicast off
and an empty unicast list the counter still increments although nothing is
written.  Keep-alive resends perform exactly one such `sendOut` per
iteration, and the terminal frame of `teardown` likewise carries exactly one
increment. -/
theorem sendOut_seq_exactly_once (wr : UDPAddr → Bool) (t : Transmitter)
    (univ : Nat) (p : DataPacket) (h : t.master univ = some p) :
    ((t.sendOut wr univ).1.master univ = some p.SequenceIncr) ∧
    (p.SequenceIncr.sequence = (p.sequence + 1) % 256) ∧
    ((t.sendOut wr univ).2.map Write.dest =
      (if t.multicast univ then [generateMulticast univ] else []) ++
        t.destinations univ) ∧
    (t.keepAliveIteration wr univ =
      some ((t.sendOut wr univ).1, (t.sendOut wr univ).2,
        (t.sendOut wr univ).1.keepAliveInterval)) ∧
    (∃ ws, (t.teardown wr univ).2 =
        [Ev.transmit ((p.SetStreamTerminated true).SequenceIncr) ws,
          Ev.sockClose] ∧
      ((p.SetStreamTerminated true).SequenceIncr).sequence =
        (p.sequence + 1) % 256) := by
  refine ⟨?_, rfl, ?_, ?_, ?_⟩
  · rw [sendOut_active_eq wr t univ p h]
    simp
  · rw [sendOut_active_eq wr t univ p h]
    by_cases hm : t.multicast univ <;>
      simp [hm, List.map_map, Function.comp_def]
  · simp [Transmitter.keepAliveIteration, h]
  · have hterm : (Function.update t.master univ
        ((t.master univ).map (fun p => p.SetStreamTerminated true))) univ =
        some (p.SetStreamTerminated true) := by
      simp [h]
    refine ⟨(if t.multicast univ then
        [⟨generateMulticast univ, (p.SetStreamTerminated true).SequenceIncr,
          wr (generateMulticast univ)⟩] else []) ++
      (t.destinations univ).map
        (fun d => (⟨d, (p.SetStreamTerminated true).SequenceIncr, wr d⟩ :
          Write)), ?_, rfl⟩
    simp only [Transmitter.teardown]
    rw [sendOut_active_eq wr _ univ (p.SetStreamTerminated true) hterm]
    simp

/-- Witness for the amended C1 at `txFan`, universe 1. -/
theorem sendOut_seq_exactly_once_witness :
    txFan.master 1 = some pMaster1 ∧
    (((Transmitter.sendOut (fun _ => true) txFan 1).1.master 1 =
        some pMaster1.SequenceIncr) ∧
    (pMaster1.SequenceIncr.sequence = (pMaster1.sequence + 1) % 256) ∧
    ((Transmitter.sendOut (fun _ => true) txFan 1).2.map Write.dest =
      (if txFan.multicast 1 then [generateMulticast 1] else []) ++
        txFan.destinations 1) ∧
    (Transmitter.keepAliveIteration (fun _ => true) txFan 1 =
      some ((Transmitter.sendOut (fun _ => true) txFan 1).1,
        (Transmitter.sendOut (fun _ => true) txFan 1).2,
        (Transmitter.sendOut (fun _ => true) txFan 1).1.keepAliveInterval)) ∧
    (∃ ws, (Transmitter.teardown (fun _ => true) txFan 1).2 =
        [Ev.transmit ((pMaster1.SetStreamTerminated true).SequenceIncr) ws,
          Ev.sockClose] ∧
      ((pMaster1.SetStreamTerminated true).SequenceIncr).sequence =
        (pMaster1.sequence + 1) % 256)) :=
  ⟨rfl, sendOut_seq_exactly_once (fun _ => true) txFan 1 pMaster1 rfl⟩

set_option maxRecDepth 4096 in
/-- C4: `Activate` on an already-active universe fails with the
already-active error and returns the transmitter unchanged; more generally,
every failed `Activate` (duplicate universe, address-resolution failure,
socket-creation failure) leaves the whole registry state unchanged. -/
theorem Activate_failure_leaves_registry (t : Transmitter)
    (resolveOk listenOk : Bool) (univ : Nat) :
    (t.IsActivated univ = true →
      t.Activate resolveOk listenOk univ =
        (t, some (ActivateError.alreadyActive univ))) ∧
    (∀ e, (t.Activate resolveOk listenOk univ).2 = some e →
      (t.Activate resolveOk listenOk univ).1 = t) := by
  constructor
  · intro h
    simp [Transmitter.Activate, h]
  · intro e he
    by_cases h1 : t.IsActivated univ
    · simp [Transmitter.Activate, h1]
    · by_cases h2 : resolveOk <;> by_cases h3 : listenOk <;>
        simp [Transmitter.Activate, h1, h2, h3] at he ⊢

/-- Witness for C4: a duplicate `Activate` of the already-active universe 1
of `txActive1` fails and leaves the transmitter untouched. -/
theorem Activate_failure_leaves_registry_witness :
    txActive1.IsActivated 1 = true ∧
    Transmitter.Activate txActive1 true true 1 =
      (txActive1, some (ActivateError.alreadyActive 1)) :=
  ⟨rfl, (Activate_failure_leaves_registry txActive1 true true 1).1 rfl⟩

set_option maxRecDepth 4096 in
/-- C3: closing the input stream of an active universe makes the session
send exactly one further frame, which carries the termination flag, then
close the socket; the universe is removed from both the `master` and
`universes` maps; afterwards the same universe number activates again
successfully and the new session's frame state is fresh: sequence counter 0,
zeroed 512-byte payload, termination flag unset. -/
theorem teardown_removes_and_reactivates (wr : UDPAddr → Bool)
    (t : Transmitter) (univ : Nat) (p : DataPacket)
    (h : t.master univ = some p) :
    (∃ ws, (t.teardown wr univ).2 =
      [Ev.transmit ((p.SetStreamTerminated true).SequenceIncr) ws,
        Ev.sockClose] ∧
      ((p.SetStreamTerminated true).SequenceIncr).streamTerminated = true) ∧
    ((t.teardown wr univ).1.master univ = none) ∧
    ((t.teardown wr univ).1.universes univ = false) ∧
    (((t.teardown wr univ).1.Activate true true univ).2 = none) ∧
    (∃ q, ((t.teardown wr univ).1.Activate true true univ).1.master univ =
        some q ∧ q.sequence = 0 ∧ q.data = List.replicate 512 0 ∧
        q.streamTerminated = false) := by
  have hterm : (Function.update t.master univ
      ((t.master univ).map (fun p => p.SetStreamTerminated true))) univ =
      some (p.SetStreamTerminated true) := by
    simp [h]
  have htear : t.teardown wr univ =
      ({ t with
          master := Function.update
            (Function.update (Function.update t.master univ
              ((t.master univ).map (fun p => p.SetStreamTerminated true)))
              univ (some (p.SetStreamTerminated true).SequenceIncr))
            univ none
          universes := Function.update t.universes univ false },
        [Ev.transmit ((p.SetStreamTerminated true).SequenceIncr)
          ((if t.multicast univ then
              [⟨generateMulticast univ, (p.SetStreamTerminated true).SequenceIncr,
                wr (generateMulticast univ)⟩] else []) ++
            (t.destinations univ).map
              (fun d => (⟨d, (p.SetStreamTerminated true).SequenceIncr,
                wr d⟩ : Write))),
          Ev.sockClose]) := by
    simp only [Transmitter.teardown]
    rw [sendOut_active_eq wr _ univ (p.SetStreamTerminated true) hterm]
    simp
  refine ⟨⟨(if t.multicast univ then
      [⟨generateMulticast univ, (p.SetStreamTerminated true).SequenceIncr,
        wr (generateMulticast univ)⟩] else []) ++
    (t.destinations univ).map
      (fun d => (⟨d, (p.SetStreamTerminated true).SequenceIncr, wr d⟩ :
        Write)), ?_, rfl⟩, ?_, ?_, ?_, ?_⟩
  · rw [htear]
  · rw [htear]; simp
  · rw [htear]; simp
  · rw [htear]
    simp [Transmitter.Activate, Transmitter.IsActivated]
  · rw [htear]
    by_cases hp : t.priority > 0 <;>
      simp [Transmitter.Activate, Transmitter.IsActivated, hp,
        DataPacket.SetCID, DataPacket.SetSourceName, DataPacket.SetUniverse,
        DataPacket.SetData, DataPacket.SetPriority, NewDataPacket]

/-- Witness for C3 at `txActive1`, universe 1. -/
theorem teardown_removes_and_reactivates_witness :
    txActive1.master 1 = some pMaster1 ∧
    ((∃ ws, (Transmitter.teardown (fun _ => true) txActive1 1).2 =
      [Ev.transmit ((pMaster1.SetStreamTerminated true).SequenceIncr) ws,
        Ev.sockClose] ∧
      ((pMaster1.SetStreamTerminated true).SequenceIncr).streamTerminated =
        true) ∧
    ((Transmitter.teardown (fun _ => true) txActive1 1).1.master 1 = none) ∧
    ((Transmitter.teardown (fun _ => true) txActive1 1).1.universes 1 =
      false) ∧
    (((Transmitter.teardown (fun _ => true) txActive1 1).1.Activate true true
        1).2 = none) ∧
    (∃ q, ((Transmitter.teardown (fun _ => true) txActive1 1).1.Activate true
          true 1).1.master 1 = some q ∧ q.sequence = 0 ∧
        q.data = List.replicate 512 0 ∧ q.streamTerminated = false)) :=
  ⟨rfl, teardown_removes_and_reactivates (fun _ => true) txActive1 1
    pMaster1 rfl⟩

/-- C5, counterexample: universe 1 of `txActive1` was activated while the
transmitter's keep-alive interval was the 1-second default, yet after a
later `SetKeepAlive` the very next keep-alive iteration sleeps for the new
value — the running loop's interval is not a snapshot taken at `Activate`
time. -/
theorem keepAlive_interval_not_snapshotted :
    txActive1.keepAliveInterval = 1000000000 ∧
    ((txActive1.SetKeepAlive 5000000000).keepAliveIteration (fun _ => true)
        1).map (fun r => r.2.2) = some 5000000000 ∧
    (5000000000 : Nat) ≠ 1000000000 := by
  refine ⟨rfl, rfl, by decide⟩

set_option maxRecDepth 4096 in
/-- C5 as amended: the keep-alive loop reads the transmitter's current
`keepAliveInterval` on every iteration; a `SetKeepAlive` made at any time —
before or after activation — governs the very next sleep of the loop, and
`Activate` itself never alters the interval. -/
theorem keepAlive_interval_reads_current (t : Transmitter) (univ d : Nat)
    (wr : UDPAddr → Bool) (p : DataPacket) (h : t.master univ = some p) :
    (((t.SetKeepAlive d).keepAliveIteration wr univ).map
      (fun r => r.2.2) = some d) ∧
    (∀ resolveOk listenOk : Bool, ∀ u' : Nat,
      (t.Activate resolveOk listenOk u').1.keepAliveInterval =
        t.keepAliveInterval) := by
  constructor
  · have h' : (t.SetKeepAlive d).master univ = some p := h
    rw [Transmitter.keepAliveIteration, h']
    rw [sendOut_active_eq wr (t.SetKeepAlive d) univ p h']
    rfl
  · intro resolveOk listenOk u'
    by_cases h1 : t.IsActivated u' <;> by_cases h2 : resolveOk <;>
      by_cases h3 : listenOk <;>
      simp [Transmitter.Activate, h1, h2, h3]

/-- Witness for the amended C5 at `txActive1`, universe 1, interval 7. -/
theorem keepAlive_interval_reads_current_witness :
    txActive1.master 1 = some pMaster1 ∧
    ((((txActive1.SetKeepAlive 7).keepAliveIteration (fun _ => true) 1).map
      (fun r => r.2.2) = some 7) ∧
    (∀ resolveOk listenOk : Bool, ∀ u' : Nat,
      (txActive1.Activate resolveOk listenOk u').1.keepAliveInterval =
        txActive1.keepAliveInterval)) :=
  ⟨rfl, keepAlive_interval_reads_current txActive1 1 7 (fun _ => true)
    pMaster1 rfl⟩

/-- Helper: the destination-resolution loop (transmitter.go:152-162), fully
characterised — the resolved addresses are the successfully resolved
non-empty entries in input order (port 5568 appended before resolution),
and the errors are one per unresolvable non-empty entry, in input order. -/
theorem resolveFold_spec (resolve : String → Option UDPAddr)
    (dests : List String) (acc : List UDPAddr × List String) :
    dests.foldl (resolveStep resolve) acc =
      (acc.1 ++ dests.filterMap
        (fun d => if d = "" then none else resolve (d ++ ":5568")),
       acc.2 ++ (dests.filter
        (fun d => !(d == "") && (resolve (d ++ ":5568")).isNone)).map
        (fun d => d ++ ":5568")) := by
  induction dests generalizing acc with
  | nil => simp
  | cons d ds ih =>
    by_cases hd : d = ""
    · subst hd
      simp [resolveStep, ih]
    · cases hr : resolve (d ++ ":5568") with
      | none => simp [resolveStep, hd, hr, ih]
      | some a => simp [resolveStep, hd, hr, ih]

/-- C6: `SetDestinations` replaces the universe's destination list wholesale
with exactly the successfully resolved non-empty entries in input order
(each resolved with UDP port 5568 appended), silently skips empty strings,
and reports one error per unresolvable non-empty entry without aborting the
rest; in particular the spec's example input yields the two resolved
addresses and exactly one error. -/
theorem SetDestinations_replaces_and_reports
    (resolve : String → Option UDPAddr) (t : Transmitter) (univ : Nat)
    (dests : List String) :
    ((t.SetDestinations resolve univ dests).1.destinations univ =
      dests.filterMap
        (fun d => if d = "" then none else resolve (d ++ ":5568"))) ∧
    ((t.SetDestinations resolve univ dests).2.length =
      (dests.filter
        (fun d => !(d == "") && (resolve (d ++ ":5568")).isNone)).length) ∧
    (∀ a b : UDPAddr, resolve "10.0.0.5:5568" = some a →
      resolve "10.0.0.6:5568" = some b →
      resolve "not-a-host:5568" = none →
      ((t.SetDestinations resolve univ
          ["10.0.0.5", "", "not-a-host", "10.0.0.6"]).1.destinations univ =
        [a, b]) ∧
      ((t.SetDestinations resolve univ
          ["10.0.0.5", "", "not-a-host", "10.0.0.6"]).2.length = 1)) := by
  refine ⟨?_, ?_, ?_⟩
  · simp [Transmitter.SetDestinations, resolveFold_spec]
  · simp [Transmitter.SetDestinations, resolveFold_spec]
  · intro a b h5 h6 hn
    constructor
    · simp [Transmitter.SetDestinations, resolveStep, h5, h6, hn]
    · simp [Transmitter.SetDestinations, resolveStep, h5, h6, hn]

/-- A concrete resolver oracle under which every host string resolves except
the spec example's `not-a-host`. -/
def resolveEx : String → Option UDPAddr :=
  fun s => if s = "not-a-host:5568" then none else some ⟨s⟩

/-- Witness for C6: the spec's example input under `resolveEx`. -/
theorem SetDestinations_replaces_and_reports_witness :
    resolveEx "10.0.0.5:5568" = some ⟨"10.0.0.5:5568"⟩ ∧
    resolveEx "10.0.0.6:5568" = some ⟨"10.0.0.6:5568"⟩ ∧
    resolveEx "not-a-host:5568" = none ∧
    (((txFresh.SetDestinations resolveEx 1
        ["10.0.0.5", "", "not-a-host", "10.0.0.6"]).1.destinations 1 =
      [⟨"10.0.0.5:5568"⟩, ⟨"10.0.0.6:5568"⟩]) ∧
    ((txFresh.SetDestinations resolveEx 1
        ["10.0.0.5", "", "not-a-host", "10.0.0.6"]).2.length = 1)) :=
  ⟨rfl, rfl, rfl,
    (SetDestinations_replaces_and_reports resolveEx txFresh 1
      ["10.0.0.5", "", "not-a-host", "10.0.0.6"]).2.2
      ⟨"10.0.0.5:5568"⟩ ⟨"10.0.0.6:5568"⟩ rfl rfl rfl⟩

/-- Heap-level refinement of the destination registry: Go slices are heap
allocations, so the `destinations` map stores references into a slice store.
`hnext` is the next fresh allocation index; `destRef` maps a universe to the
reference of its current destination slice (`none` = absent key, read as the
nil slice). -/
structure DestHeapState where
  heap : Nat → List UDPAddr
  hnext : Nat
  destRef : Nat → Option Nat

/-- The destination-slice content the transmitter currently holds for a
universe (a nil slice when the map has no entry). -/
def destsOfH (s : DestHeapState) (univ : Nat) : List UDPAddr :=
  match s.destRef univ with
  | none => []
  | some r => s.heap r

/-- `Destinations` (transmitter.go:173-177) at heap level: `make` a fresh
slice of the same length, `copy` the current contents into it, and return
the fresh reference. -/
def DestinationsH (s : DestHeapState) (univ : Nat) : DestHeapState × Nat :=
  ({ s with
      heap := Function.update s.heap s.hnext (destsOfH s univ)
      hnext := s.hnext + 1 },
    s.hnext)

/-- `SetDestinations` (transmitter.go:148-169) at heap level: the new
destination slice is built in a fresh allocation (`make([]net.UDPAddr, 0)`
plus appends) and the universe's map entry is re-pointed at it. -/
def SetDestinationsH (resolve : String → Option UDPAddr) (s : DestHeapState)
    (univ : Nat) (dests : List String) : DestHeapState × List String :=
  let r := dests.foldl (resolveStep resolve) ([], [])
  ({ heap := Function.update s.heap s.hnext r.1
     hnext := s.hnext + 1
     destRef := Function.update s.destRef univ (some s.hnext) },
    r.2)

/-- In-place overwrite of the slice behind reference `r`: what caller code
can do to a slice it was handed. -/
def mutateSliceH (s : DestHeapState) (r : Nat) (content : List UDPAddr) :
    DestHeapState :=
  { s with heap := Function.update s.heap r content }

/-- C8: the slice `Destinations` returns is independent of the transmitter's
internal state.  Under the allocation discipline (the universe's current
slice reference precedes `hnext`): the returned fresh slice holds the
current destination list; a `SetDestinations` performed afterwards leaves
the returned slice's content untouched; and overwriting the returned slice
does not change the destination list a subsequent `Destinations` call
copies. -/
theorem Destinations_copy_independent (s : DestHeapState) (univ : Nat)
    (hwf : ∀ r, s.destRef univ = some r → r < s.hnext)
    (resolve : String → Option UDPAddr) (dests : List String)
    (content : List UDPAddr) :
    ((DestinationsH s univ).1.heap (DestinationsH s univ).2 =
      destsOfH s univ) ∧
    ((SetDestinationsH resolve (DestinationsH s univ).1 univ dests).1.heap
      (DestinationsH s univ).2 = destsOfH s univ) ∧
    (destsOfH (mutateSliceH (DestinationsH s univ).1 (DestinationsH s univ).2
      content) univ = destsOfH s univ) := by
  refine ⟨?_, ?_, ?_⟩
  · simp [DestinationsH]
  · simp [DestinationsH, SetDestinationsH]
  · cases hr : s.destRef univ with
    | none => simp [destsOfH, mutateSliceH, DestinationsH, hr]
    | some r =>
      have hlt : r < s.hnext := hwf r hr
      simp only [destsOfH, mutateSliceH, DestinationsH, hr]
      rw [Function.update_noteq (by omega), Function.update_noteq (by omega)]

/-- A concrete heap state: one destination set for universe 1 via
`SetDestinationsH` starting from the empty heap. -/
def heapEx : DestHeapState :=
  (SetDestinationsH resolveAll
    { heap := fun _ => [], hnext := 0, destRef := fun _ => none }
    1 ["10.0.0.5"]).1

/-- Witness for C8 at `heapEx`, universe 1. -/
theorem Destinations_copy_independent_witness :
    (∀ r, heapEx.destRef 1 = some r → r < heapEx.hnext) ∧
    (((DestinationsH heapEx 1).1.heap (DestinationsH heapEx 1).2 =
      destsOfH heapEx 1) ∧
    ((SetDestinationsH resolveAll (DestinationsH heapEx 1).1 1
        ["10.0.0.6"]).1.heap (DestinationsH heapEx 1).2 =
      destsOfH heapEx 1) ∧
    (destsOfH (mutateSliceH (DestinationsH heapEx 1).1
      (DestinationsH heapEx 1).2 [⟨"9.9.9.9:5568"⟩]) 1 =
      destsOfH heapEx 1)) :=
  ⟨fun r hr => by
      simp [heapEx, SetDestinationsH] at hr ⊢
      omega,
    Destinations_copy_independent heapEx 1
      (fun r hr => by
        simp [heapEx, SetDestinationsH] at hr ⊢
        omega)
      resolveAll ["10.0.0.6"] [⟨"9.9.9.9:5568"⟩]⟩

/-- A client-visible operation on the transmitter, covering every call site
in transmitter.go that touches the registry: configuration setters, a
(possibly failing) `Activate`, a payload push, a keep-alive tick and a
stream close. -/
inductive Op where
  | setMulticast (univ : Nat) (m : Bool)
  | setDestinations (univ : Nat) (dests : List String)
  | setKeepAlive (interval : Nat)
  | setPriority (prio : Nat)
  | activate (univ : Nat) (resolveOk listenOk : Bool)
  | payload (univ : Nat) (data : List Nat)
  | keepAliveTick (univ : Nat)
  | closeStream (univ : Nat)

/-- Interpret one operation as its registry effect (datagram writes and
returned errors discarded). -/
def applyOp (resolve : String → Option UDPAddr) (wr : UDPAddr → Bool)
    (t : Transmitter) : Op → Transmitter
  | Op.setMulticast u m => t.SetMulticast u m
  | Op.setDestinations u ds => (t.SetDestinations resolve u ds).1
  | Op.setKeepAlive interval => t.SetKeepAlive interval
  | Op.setPriority prio => t.SetPriority prio
  | Op.activate u ro lo => (t.Activate ro lo u).1
  | Op.payload u d => (t.recvPayload wr u d).1
  | Op.keepAliveTick u =>
      match t.keepAliveIteration wr u with
      | none => t
      | some r => r.1
  | Op.closeStream u => (t.teardown wr u).1

/-- Run a sequence of operations left to right. -/
def applyOps (resolve : String → Option UDPAddr) (wr : UDPAddr → Bool)
    (t : Transmitter) (ops : List Op) : Transmitter :=
  ops.foldl (applyOp resolve wr) t

/-- The value of the most recent `SetMulticast` call for universe `u` in an
operation sequence, when any. -/
def lastMulticastSet (u : Nat) : List Op → Option Bool
  | [] => none
  | op :: ops =>
    match lastMulticastSet u ops with
    | some m => some m
    | none =>
      match op with
      | Op.setMulticast u' m => if u' = u then some m else none
      | _ => none

set_option maxRecDepth 8192 in
/-- Helper: no operation other than `SetMulticast` on `u` itself changes the
multicast flag of `u`. -/
theorem applyOp_multicast (resolve : String → Option UDPAddr)
    (wr : UDPAddr → Bool) (t : Transmitter) (op : Op) (u : Nat) :
    (applyOp resolve wr t op).multicast u =
      match op with
      | Op.setMulticast u' m => if u' = u then m else t.multicast u
      | _ => t.multicast u := by
  cases op with
  | setMulticast u' m =>
    by_cases h : u' = u
    · simp [applyOp, Transmitter.SetMulticast, Function.update_apply, h]
    · simp [applyOp, Transmitter.SetMulticast, Function.update_apply, h,
        Ne.symm h]
  | setDestinations u' ds => simp [applyOp, Transmitter.SetDestinations]
  | setKeepAlive interval => simp [applyOp, Transmitter.SetKeepAlive]
  | setPriority prio => simp [applyOp, Transmitter.SetPriority]
  | activate u' ro lo =>
    by_cases h1 : t.IsActivated u' <;> by_cases h2 : ro <;>
      by_cases h3 : lo <;> simp [applyOp, Transmitter.Activate, h1, h2, h3]
  | payload u' d =>
    cases hm : t.master u' with
    | none =>
      simp [applyOp, Transmitter.recvPayload, Transmitter.sendOut, hm]
    | some q =>
      simp [applyOp, Transmitter.recvPayload, Transmitter.sendOut, hm]
  | keepAliveTick u' =>
    cases h : t.master u' with
    | none => simp [applyOp, Transmitter.keepAliveIteration, h]
    | some q =>
      simp [applyOp, Transmitter.keepAliveIteration, h, Transmitter.sendOut]
  | closeStream u' =>
    cases hm : t.master u' with
    | none =>
      simp [applyOp, Transmitter.teardown, Transmitter.sendOut, hm]
    | some q =>
      simp [applyOp, Transmitter.teardown, Transmitter.sendOut, hm]

/-- Helper: the multicast flag after a run is the most recent `SetMulticast`
value for that universe, defaulting to the starting state's flag. -/
theorem applyOps_multicast (resolve : String → Option UDPAddr)
    (wr : UDPAddr → Bool) (ops : List Op) (t : Transmitter) (u : Nat) :
    (applyOps resolve wr t ops).multicast u =
      (lastMulticastSet u ops).getD (t.multicast u) := by
  induction ops generalizing t with
  | nil => simp [applyOps, lastMulticastSet]
  | cons op ops ih =>
    have hstep : applyOps resolve wr t (op :: ops) =
        applyOps resolve wr (applyOp resolve wr t op) ops := rfl
    rw [hstep, ih]
    cases hlast : lastMulticastSet u ops with
    | some m => simp [lastMulticastSet, hlast]
    | none =>
      rw [applyOp_multicast]
      cases op with
      | setMulticast u' m =>
        by_cases h : u' = u <;> simp [lastMulticastSet, hlast, h]
      | setDestinations u' ds => simp [lastMulticastSet, hlast]
      | setKeepAlive interval => simp [lastMulticastSet, hlast]
      | setPriority prio => simp [lastMulticastSet, hlast]
      | activate u' ro lo => simp [lastMulticastSet, hlast]
      | payload u' d => simp [lastMulticastSet, hlast]
      | keepAliveTick u' => simp [lastMulticastSet, hlast]
      | closeStream u' => simp [lastMulticastSet, hlast]

/-- C10: starting from a freshly constructed transmitter, after any sequence
of operations `IsMulticast u` returns exactly the value of the most recent
`SetMulticast` call for `u`, and `false` when no such call occurred —
independently of activations, teardowns, destination changes and
`SetMulticast` calls on other universes. -/
theorem IsMulticast_last_set (resolve : String → Option UDPAddr)
    (wr : UDPAddr → Bool) (binding : String) (c : List Nat) (sn : String)
    (ro lo : Bool) (ops : List Op) (u : Nat) :
    Transmitter.IsMulticast
      (applyOps resolve wr (NewTransmitter binding c sn ro lo).1 ops) u =
      (lastMulticastSet u ops).getD false := by
  have hinit : (NewTransmitter binding c sn ro lo).1.multicast u = false := by
    by_cases h1 : ro <;> by_cases h2 : lo <;> simp [NewTransmitter, h1, h2]
  rw [Transmitter.IsMulticast, applyOps_multicast, hinit]

/-- Shared state of one universe's two goroutines (transmitter.go:87-110).
The master packet is a single heap object; both goroutines reach it through
the `master` map entry and, inside `sendOut`, through a local pointer, so
packet mutations are visible to both.  Neither goroutine takes a lock, so
any statement-level interleaving is a legal execution.  `wire` records the
datagrams in send order, tagged `true` when issued by the keep-alive
goroutine; `panicked` records a nil-pointer dereference. -/
structure RaceState where
  packet : DataPacket
  masterHasU : Bool
  universesHasU : Bool
  multicast : Bool
  dests : List UDPAddr
  sockOpen : Bool
  wire : List (Bool × DataPacket)
  kaPC : Nat
  sndPC : Nat
  panicked : Bool
deriving Repr, DecidableEq

/-- The datagrams one `sendOut` write phase (transmitter.go:189-195) puts on
the wire, serialized from the shared packet's current state. -/
def raceWrites (ka : Bool) (s : RaceState) : List (Bool × DataPacket) :=
  (if s.multicast then [(ka, s.packet.getBytes)] else []) ++
    s.dests.map (fun _ => (ka, s.packet.getBytes))

/-- One atomic step of the keep-alive goroutine (transmitter.go:87-96).
PC 0: the loop's own registry check (line 90); PC 1: `sendOut`'s check
(line 182); PC 2: read the map entry and increment its sequence (lines
186-187, a nil dereference if the entry was deleted in between); PC 3: the
write fan-out (lines 189-195); PC 4: `time.Sleep` then loop; PC 5: loop
exited. -/
def kaStep (s : RaceState) : RaceState :=
  match s.kaPC with
  | 0 => if s.masterHasU then { s with kaPC := 1 } else { s with kaPC := 5 }
  | 1 => if s.masterHasU then { s with kaPC := 2 } else { s with kaPC := 4 }
  | 2 =>
    if s.masterHasU then
      { s with packet := s.packet.SequenceIncr, kaPC := 3 }
    else { s with panicked := true }
  | 3 => { s with wire := s.wire ++ raceWrites true s, kaPC := 4 }
  | 4 => { s with kaPC := 0 }
  | _ => s

/-- One atomic step of the send goroutine's epilogue after the caller closed
the input channel with no payload pending (transmitter.go:103-109).
PC 0: set the termination flag through the map entry (line 104, nil
dereference if absent); PCs 1-3: the final `sendOut` (check, increment,
write fan-out); PC 4: delete the `master` entry; PC 5: delete the
`universes` entry; PC 6: close the socket; PC 7: done. -/
def sndStep (s : RaceState) : RaceState :=
  match s.sndPC with
  | 0 =>
    if s.masterHasU then
      { s with packet := s.packet.SetStreamTerminated true, sndPC := 1 }
    else { s with panicked := true }
  | 1 => if s.masterHasU then { s with sndPC := 2 } else { s with sndPC := 4 }
  | 2 =>
    if s.masterHasU then
      { s with packet := s.packet.SequenceIncr, sndPC := 3 }
    else { s with panicked := true }
  | 3 => { s with wire := s.wire ++ raceWrites false s, sndPC := 4 }
  | 4 => { s with masterHasU := false, sndPC := 5 }
  | 5 => { s with universesHasU := false, sndPC := 6 }
  | 6 => { s with sockOpen := false, sndPC := 7 }
  | _ => s

/-- Run a schedule: `true` steps the keep-alive goroutine, `false` the send
goroutine.  Go provides no synchronization between the two (no mutex, no
channel hand-off), so every schedule is a legal execution. -/
def raceRun (s : RaceState) (sched : List Bool) : RaceState :=
  sched.foldl (fun s ka => if ka then kaStep s else sndStep s) s

/-- Universe 1 just activated with multicast enabled and no unicast
destinations, the caller having closed the channel immediately: master map
entry present, fresh master packet, both goroutines at their entry point. -/
def raceInit : RaceState :=
  { packet := pMaster1
    masterHasU := true
    universesHasU := true
    multicast := true
    dests := []
    sockOpen := true
    wire := []
    kaPC := 0
    sndPC := 0
    panicked := false }

/-- Schedule A: the send goroutine performs the full terminal transmit, the
keep-alive goroutine — which passed no synchronization barrier — then runs
its own complete `sendOut` before the send goroutine reaches
`delete(t.master, universe)`. -/
def schedA : List Bool :=
  [false, false, false, false, true, true, true, true, false, false, false]

/-- Schedule B: the keep-alive goroutine is preempted between its sequence
increment and its write fan-out while the send goroutine performs the whole
terminal transmit. -/
def schedB : List Bool :=
  [true, true, true, false, false, false, false, true, false, false, false]

/-- C2 fails on the code: the two goroutines share the frame state and the
socket with no mutual exclusion, so legal interleavings exist in which
(schedule A) a keep-alive transmit reaches the wire after the terminal
frame — the terminal frame is not the last frame sent — and (schedule B)
two concurrently executing transmits serialize the same sequence number
twice, skipping the one in between.  Neither execution panics, and in both
the send goroutine runs to completion. -/
theorem race_keepAlive_after_terminal :
    ((raceRun raceInit schedA).wire =
      [(false, (pMaster1.SetStreamTerminated true).SequenceIncr),
        (true, ((pMaster1.SetStreamTerminated true).SequenceIncr).SequenceIncr)] ∧
      (raceRun raceInit schedA).panicked = false ∧
      (raceRun raceInit schedA).sndPC = 7) ∧
    ((raceRun raceInit schedB).wire.map (fun w => (w.1, w.2.sequence)) =
      [(false, 2), (true, 2)] ∧
      (raceRun raceInit schedB).panicked = false ∧
      (raceRun raceInit schedB).sndPC = 7) := by
  refine ⟨⟨rfl, rfl, rfl⟩, rfl, rfl, rfl⟩
